import Mathlib

/-!
Shallow embedding of `src/web/js/aspectRatioResizer.js`.

The file registers two browser event handlers (`resizeInfoHandler`,
`megapixelReducerHandler`) that render an event payload as a multi-line
console message, and a `beforeRegisterNodeDef` hook that wraps the
`onNodeCreated` prototype method of two node types with cosmetic
decoration (title, color, bgcolor).

Modelling conventions:
* A JavaScript field that may be absent (`undefined`) is an `Option`.
  Template interpolation of an absent field renders the text
  "undefined" (function `interp`), exactly as the backtick templates in
  the source do.
* Scalar payload fields (strings, booleans, numbers) are modelled by the
  string that template interpolation produces for them, since the
  handlers only ever interpolate them into text.  In particular
  `original_megapixels` is modelled by the string that
  `original_megapixels.toFixed(2)` renders when the field is present;
  when it is absent the member access `.toFixed` throws, which the model
  records as an error before any log is emitted.
* `data.resize_info.forEach(...)` throws a TypeError when `resize_info`
  is absent; `info.new.includes(...)` throws when `info.new` is absent
  (the preceding strict inequality test on `undefined` does not throw).
  A handler run is therefore a `HandlerResult`: the list of console.log
  events that actually happened, in order, plus whether the handler
  terminated by throwing.
* JavaScript `s.includes(sub)` (substring test) is `strContains`.
* JavaScript truthiness of an optional string field (`if (info.constraint)`)
  is `truthy`: absent and the empty string are falsy.
-/

/-- Template interpolation of a possibly absent string field. -/
def interp : Option String → String
  | some s => s
  | none => "undefined"

/-- Prefix test on character lists: the second list is a prefix of the
first. -/
def hasPrefixL : List Char → List Char → Bool
  | _, [] => true
  | [], _ :: _ => false
  | a :: as, b :: bs => a == b && hasPrefixL as bs

/-- Substring occurrence test on character lists: the second list occurs
contiguously in the first. -/
def hasSubstringL : List Char → List Char → Bool
  | [], ns => hasPrefixL [] ns
  | a :: as, ns => hasPrefixL (a :: as) ns || hasSubstringL as ns

/-- JavaScript substring test: `s.includes(sub)`. -/
def strContains (s sub : String) : Bool :=
  hasSubstringL s.data sub.data

/-- JavaScript truthiness of an optional string field. -/
def truthy : Option String → Bool
  | some s => s != ""
  | none => false

/-- One console.log event: either the raw event object
(`console.log("...:", data)`) or the formatted message. -/
inductive LogItem where
  | raw
  | msg (s : String)
  deriving DecidableEq, Repr

/-- The observable outcome of one handler run: the console.log events that
happened, in order, and whether the handler threw. -/
structure HandlerResult where
  logs : List LogItem
  errored : Bool
  deriving DecidableEq, Repr

/-- One entry of `resize_info` in a ResizeInfoEvent (fields possibly absent). -/
structure ResizeEntryJS where
  original : Option String
  new : Option String
  scale : Option String
  constraint : Option String
  deriving DecidableEq, Repr

/-- A (possibly malformed) ResizeInfoEvent payload. -/
structure ResizeInfoEventJS where
  constraints : Option String
  resize_mode : Option String
  enable_width : Option String
  enable_height : Option String
  batch_size : Option String
  resize_info : Option (List ResizeEntryJS)
  deriving DecidableEq, Repr

/-- One entry of `resize_info` in a MegapixelReducerEvent. -/
structure MPEntryJS where
  original : Option String
  new : Option String
  megapixels : Option String
  scale : Option String
  deriving DecidableEq, Repr

/-- A (possibly malformed) MegapixelReducerEvent payload. -/
structure MegapixelReducerEventJS where
  max_megapixels : Option String
  original_megapixels : Option String
  only_reduce : Option String
  batch_size : Option String
  resize_info : Option (List MPEntryJS)
  deriving DecidableEq, Repr

/-- The per-entry test inside the `some(...)` call:
`info.new !== "unchanged" && !info.new.includes("unchanged")`. -/
def gateStr (s : String) : Bool :=
  (s != "unchanged") && (!(strContains s "unchanged"))

/-- The per-entry test applied to a possibly absent `new` field: when the
field is absent, `undefined !== "unchanged"` is true and the subsequent
`undefined.includes(...)` throws. -/
def entryGate : Option String → Except Unit Bool
  | some s => Except.ok (gateStr s)
  | none => Except.error ()

/-- `data.resize_info.some(info => info.new !== "unchanged" &&
!info.new.includes("unchanged"))`, applied to the list of `new` fields:
left-to-right with short-circuit on the first `true`, propagating a throw. -/
def someChanged : List (Option String) → Except Unit Bool
  | [] => Except.ok false
  | x :: rest =>
    match entryGate x with
    | Except.error e => Except.error e
    | Except.ok true => Except.ok true
    | Except.ok false => someChanged rest

/-- The image line of `resizeInfoHandler` before the optional constraint
suffix: `Image ${index + 1}: ${info.original} → ${info.new}
(scale: ${info.scale})`. -/
def arLineBase (i : Nat) (e : ResizeEntryJS) : String :=
  "Image " ++ toString (i + 1) ++ ": " ++ interp e.original ++ " → "
    ++ interp e.new ++ " (scale: " ++ interp e.scale ++ ")"

/-- The full image line of `resizeInfoHandler`: the constraint is appended
in square brackets when `info.constraint` is truthy. -/
def arLine (i : Nat) (e : ResizeEntryJS) : String :=
  if truthy e.constraint then
    arLineBase i e ++ " [" ++ interp e.constraint ++ "]"
  else
    arLineBase i e

/-- The image lines produced by the `forEach` loop, indexed from `k`. -/
def arLinesAux (k : Nat) : List ResizeEntryJS → List String
  | [] => []
  | e :: rest => arLine k e :: arLinesAux (k + 1) rest

/-- The image lines produced by the `forEach` loop of `resizeInfoHandler`. -/
def arLines (es : List ResizeEntryJS) : List String :=
  arLinesAux 0 es

/-- The header block of the `resizeInfoHandler` message. -/
def arHeader (d : ResizeInfoEventJS) : String :=
  "Aspect Ratio Resizer Results:\n"
    ++ "Constraints: " ++ interp d.constraints ++ "\n"
    ++ "Resize Mode: " ++ interp d.resize_mode ++ "\n"
    ++ "Width Enabled: " ++ interp d.enable_width ++ "\n"
    ++ "Height Enabled: " ++ interp d.enable_height ++ "\n"
    ++ "Batch Size: " ++ interp d.batch_size ++ "\n\n"

/-- The full message assembled by `resizeInfoHandler`: header block, then
one image line per `resize_info` entry, each terminated by a newline. -/
def arMessage (d : ResizeInfoEventJS) (es : List ResizeEntryJS) : String :=
  arHeader d ++ String.join ((arLines es).map (fun l => l ++ "\n"))

/-- `resizeInfoHandler`.  The message is assembled first (throwing before
any log when `resize_info` is absent), then the raw event object is
logged, then the formatted message is logged when the `some(...)` test
holds (the test throws when it reaches an entry with an absent `new`). -/
def resizeInfoHandler (d : ResizeInfoEventJS) : HandlerResult :=
  match d.resize_info with
  | none => ⟨[], true⟩
  | some es =>
    match someChanged (es.map (fun e => e.new)) with
    | Except.error _ => ⟨[LogItem.raw], true⟩
    | Except.ok b =>
      ⟨LogItem.raw :: (if b then [LogItem.msg (arMessage d es)] else []), false⟩

/-- The image line of `megapixelReducerHandler`:
`Image ${index + 1}: ${info.original} → ${info.new}` followed by
` (${info.megapixels}) [scale: ${info.scale}]`. -/
def mrLine (i : Nat) (e : MPEntryJS) : String :=
  "Image " ++ toString (i + 1) ++ ": " ++ interp e.original ++ " → "
    ++ interp e.new ++ " (" ++ interp e.megapixels ++ ") [scale: "
    ++ interp e.scale ++ "]"

/-- The image lines of the `forEach` loop of `megapixelReducerHandler`,
indexed from `k`. -/
def mrLinesAux (k : Nat) : List MPEntryJS → List String
  | [] => []
  | e :: rest => mrLine k e :: mrLinesAux (k + 1) rest

/-- The image lines of the `forEach` loop of `megapixelReducerHandler`. -/
def mrLines (es : List MPEntryJS) : List String :=
  mrLinesAux 0 es

/-- The header block of the `megapixelReducerHandler` message; `ompFixed`
is the text rendered by `data.original_megapixels.toFixed(2)`. -/
def mrHeader (d : MegapixelReducerEventJS) (ompFixed : String) : String :=
  "Auto Megapixel Reducer Results:\n"
    ++ "Target: " ++ interp d.max_megapixels ++ "MP\n"
    ++ "Original: " ++ ompFixed ++ "MP\n"
    ++ "Only Reduce Mode: " ++ interp d.only_reduce ++ "\n"
    ++ "Batch Size: " ++ interp d.batch_size ++ "\n\n"

/-- The full message assembled by `megapixelReducerHandler`. -/
def mrMessage (d : MegapixelReducerEventJS) (ompFixed : String)
    (es : List MPEntryJS) : String :=
  mrHeader d ompFixed ++ String.join ((mrLines es).map (fun l => l ++ "\n"))

/-- `megapixelReducerHandler`.  Building the header evaluates
`data.original_megapixels.toFixed(2)`, which throws before any log when
the field is absent; the `forEach` then throws when `resize_info` is
absent; then the raw event object is logged; then the formatted message
is logged when the `some(...)` test holds. -/
def megapixelReducerHandler (d : MegapixelReducerEventJS) : HandlerResult :=
  match d.original_megapixels with
  | none => ⟨[], true⟩
  | some omp =>
    match d.resize_info with
    | none => ⟨[], true⟩
    | some es =>
      match someChanged (es.map (fun e => e.new)) with
      | Except.error _ => ⟨[LogItem.raw], true⟩
      | Except.ok b =>
        ⟨LogItem.raw
            :: (if b then [LogItem.msg (mrMessage d omp es)] else []),
          false⟩

/-- The mutable cosmetic fields of a node instance that the wrapped
`onNodeCreated` touches. -/
structure NodeState where
  title : Option String
  color : Option String
  bgcolor : Option String
  deriving DecidableEq, Repr

/-- An `onNodeCreated` hook: it may update the node state and returns a
JavaScript value, `none` standing for `undefined`. -/
def Hook (α : Type) := NodeState → NodeState × Option α

/-- The cosmetic assignments for the AspectRatioResizer node type. -/
def decorateAR (s : NodeState) : NodeState :=
  { s with
    title := some "Aspect Ratio Resizer"
    color := some "#2a4d3a"
    bgcolor := some "#335544" }

/-- The cosmetic assignments for the AutoMegapixelReducer node type. -/
def decorateMR (s : NodeState) : NodeState :=
  { s with
    title := some "Auto Megapixel Reducer"
    color := some "#4d2a3a"
    bgcolor := some "#553344" }

/-- The wrapped `onNodeCreated` installed for AspectRatioResizer: call the
saved previous hook when present (`onNodeCreated?.apply(this, arguments)`),
then apply the cosmetic assignments, and return the previous hook result
(`undefined` when there was no previous hook). -/
def wrapAspect {α : Type} (prior : Option (Hook α)) : Hook α :=
  fun s =>
    match prior with
    | some f => (decorateAR (f s).1, (f s).2)
    | none => (decorateAR s, none)

/-- The wrapped `onNodeCreated` installed for AutoMegapixelReducer. -/
def wrapMegapixel {α : Type} (prior : Option (Hook α)) : Hook α :=
  fun s =>
    match prior with
    | some f => (decorateMR (f s).1, (f s).2)
    | none => (decorateMR s, none)

/-- The part of a node type that `beforeRegisterNodeDef` can touch: its
prototype's `onNodeCreated` slot. -/
structure NodeType (α : Type) where
  onNodeCreated : Option (Hook α)

/-- `beforeRegisterNodeDef(nodeType, nodeData, app)`: for the two matching
`nodeData.name` values, save the current hook and install the wrapped one;
otherwise leave the node type untouched. -/
def beforeRegisterNodeDef {α : Type} (name : String) (nt : NodeType α) :
    NodeType α :=
  let nt1 :=
    if name = "AspectRatioResizer" then
      { onNodeCreated := some (wrapAspect nt.onNodeCreated) }
    else nt
  let nt2 :=
    if name = "AutoMegapixelReducer" then
      { onNodeCreated := some (wrapMegapixel nt1.onNodeCreated) }
    else nt1
  nt2

/-- The cosmetic triple (title, color, bgcolor) of a node state. -/
def cosmetic (s : NodeState) : Option String × Option String × Option String :=
  (s.title, s.color, s.bgcolor)

/-- A resize entry with every field absent (the list default used to state
indexed facts totally). -/
def emptyEntry : ResizeEntryJS := ⟨none, none, none, none⟩

/-- The entry of the worked example of the spec. -/
def c8entry : ResizeEntryJS :=
  ⟨some "1920x1080", some "1024x576", some "0.533", none⟩

/-- The worked example event of the spec: constraints "width", resize mode
"downscale_only", width enabled, height disabled, batch size 1, one entry. -/
def c8event : ResizeInfoEventJS :=
  ⟨some "width", some "downscale_only", some "true", some "false", some "1",
    some [c8entry]⟩

/-- An entry whose `new` text differs from "unchanged" yet contains it as a
substring. -/
def cexEntryU2 : ResizeEntryJS :=
  ⟨some "1920x1080", some "unchanged2", some "1.0", none⟩

/-- A well-formed event whose single entry has `new` equal to
"unchanged2". -/
def cexEventU2 : ResizeInfoEventJS :=
  ⟨some "width", some "downscale_only", some "true", some "false", some "1",
    some [cexEntryU2]⟩

/-- An entry whose `constraint` field is present but is the empty string. -/
def cexEntryEmptyConstraint : ResizeEntryJS :=
  ⟨some "1920x1080", some "1024x576", some "0.533", some ""⟩

/-- An entry carrying the constraint text "width". -/
def cWidthEntry : ResizeEntryJS :=
  ⟨some "1920x1080", some "1024x576", some "0.533", some "width"⟩

/-- A megapixel-reducer entry describing an actual resize. -/
def mrEntrySample : MPEntryJS :=
  ⟨some "3840x2160", some "1884x1060", some "2.00MP", some "0.49"⟩

/-- A well-formed megapixel-reducer event with one resized entry. -/
def mrEventSample : MegapixelReducerEventJS :=
  ⟨some "2", some "8.29", some "true", some "1", some [mrEntrySample]⟩

/-- A resize entry left unchanged. -/
def c3Entry : ResizeEntryJS := ⟨some "800x600", some "unchanged", some "1.0", none⟩

/-- A well-formed event all of whose entries are unchanged. -/
def c3Event : ResizeInfoEventJS :=
  ⟨some "none", some "downscale_only", some "false", some "false", some "1",
    some [c3Entry]⟩

/-- A megapixel-reducer entry left unchanged. -/
def c3MPEntry : MPEntryJS :=
  ⟨some "800x600", some "unchanged", some "0.48MP", some "1.0"⟩

/-- A well-formed megapixel-reducer event all of whose entries are
unchanged. -/
def c3MPEvent : MegapixelReducerEventJS :=
  ⟨some "2", some "0.48", some "true", some "1", some [c3MPEntry]⟩

/-- A malformed event: all scalar header fields present but `resize_info`
absent. -/
def c6BadEvent : ResizeInfoEventJS :=
  ⟨some "width", some "both", some "true", some "true", some "1", none⟩

/-- A malformed megapixel-reducer event: `original_megapixels` absent. -/
def c6BadMPEvent : MegapixelReducerEventJS :=
  ⟨some "2", none, some "true", some "1", some []⟩

/-- A malformed megapixel-reducer event: `original_megapixels` present but
`resize_info` absent. -/
def c6BadMPEventNoInfo : MegapixelReducerEventJS :=
  ⟨some "2", some "8.29", some "true", some "1", none⟩

/-- An event whose scalar header fields are all absent but whose entries
have their `new` field present. -/
def c6UndefEvent : ResizeInfoEventJS :=
  ⟨none, none, none, none, none, some [⟨none, some "800x600", none, none⟩]⟩

/-- A megapixel-reducer event whose other scalar header fields are absent. -/
def c6UndefMPEvent : MegapixelReducerEventJS :=
  ⟨none, some "8.29", none, none, some [⟨none, some "unchanged", none, none⟩]⟩

/-! Helper lemmas about the gate condition and the image-line loops. -/

theorem gateStr_true_of_not_contains (s : String)
    (h : strContains s "unchanged" = false) : gateStr s = true := by
  have hne : s ≠ "unchanged" := by
    intro he
    rw [he] at h
    exact absurd h (by decide)
  simp [gateStr, h, bne_iff_ne]
  exact hne

theorem someChanged_ok_of_allSome (l : List (Option String))
    (h : ∀ x ∈ l, x.isSome = true) :
    ∃ b, someChanged l = Except.ok b := by
  induction l with
  | nil => exact ⟨false, rfl⟩
  | cons x rest ih =>
    obtain ⟨s, rfl⟩ := Option.isSome_iff_exists.mp (h x (by simp))
    cases hg : gateStr s with
    | true => exact ⟨true, by simp [someChanged, entryGate, hg]⟩
    | false =>
      obtain ⟨b, hb⟩ := ih (fun y hy => h y (by simp [hy]))
      exact ⟨b, by simp [someChanged, entryGate, hg, hb]⟩

theorem someChanged_false_of_unchanged (l : List (Option String))
    (h : ∀ x ∈ l, x = some "unchanged") :
    someChanged l = Except.ok false := by
  induction l with
  | nil => rfl
  | cons x rest ih =>
    have hx : x = some "unchanged" := h x (by simp)
    subst hx
    have hrest := ih (fun y hy => h y (by simp [hy]))
    simp [someChanged, entryGate,
      (by decide : gateStr "unchanged" = false), hrest]

theorem someChanged_true_of_witness (l : List (Option String)) (s : String)
    (hall : ∀ x ∈ l, x.isSome = true) (hmem : some s ∈ l)
    (hs : strContains s "unchanged" = false) :
    someChanged l = Except.ok true := by
  induction l with
  | nil => simp at hmem
  | cons x rest ih =>
    obtain ⟨t, rfl⟩ := Option.isSome_iff_exists.mp (hall x (by simp))
    cases hg : gateStr t with
    | true => simp [someChanged, entryGate, hg]
    | false =>
      have hmem2 : some s ∈ rest := by
        rcases List.mem_cons.mp hmem with heq | hm
        · exfalso
          have hst : s = t := Option.some.inj heq
          have hgt := gateStr_true_of_not_contains s hs
          rw [hst, hg] at hgt
          exact Bool.false_ne_true hgt
        · exact hm
      have hrest := ih (fun y hy => hall y (by simp [hy])) hmem2
      simp [someChanged, entryGate, hg, hrest]

theorem arLinesAux_length (k : Nat) (es : List ResizeEntryJS) :
    (arLinesAux k es).length = es.length := by
  induction es generalizing k with
  | nil => rfl
  | cons e rest ih => simp [arLinesAux, ih]

theorem arLinesAux_getD (es : List ResizeEntryJS) (k i : Nat)
    (h : i < es.length) :
    (arLinesAux k es).getD i "" = arLine (k + i) (es.getD i emptyEntry) := by
  induction es generalizing k i with
  | nil => simp at h
  | cons e rest ih =>
    cases i with
    | zero => simp [arLinesAux]
    | succ j =>
      have hj : j < rest.length := by simpa using h
      have hk : k + 1 + j = k + (j + 1) := by omega
      calc (arLinesAux k (e :: rest)).getD (j + 1) ""
          = (arLinesAux (k + 1) rest).getD j "" := by
            simp [arLinesAux, List.getD_cons_succ]
        _ = arLine (k + 1 + j) (rest.getD j emptyEntry) := ih (k + 1) j hj
        _ = arLine (k + (j + 1)) ((e :: rest).getD (j + 1) emptyEntry) := by
            rw [hk]
            simp [List.getD_cons_succ]

theorem arLine_parts (i : Nat) (e : ResizeEntryJS) (o n : String)
    (ho : e.original = some o) (hn : e.new = some n) :
    ∃ p q, arLine i e = p ++ (o ++ (" → " ++ (n ++ q))) := by
  by_cases hc : truthy e.constraint = true
  · refine ⟨"Image " ++ toString (i + 1) ++ ": ",
      " (scale: " ++ interp e.scale ++ ") ["
        ++ interp e.constraint ++ "]", ?_⟩
    simp [arLine, arLineBase, hc, ho, hn, interp, String.append_assoc]
  · have hc2 : truthy e.constraint = false := by simpa using hc
    refine ⟨"Image " ++ toString (i + 1) ++ ": ",
      " (scale: " ++ interp e.scale ++ ")", ?_⟩
    simp [arLine, arLineBase, hc2, ho, hn, interp, String.append_assoc]

/-! Claim theorems. -/

/-- C1 (counterexample): the claim says a `new` field merely different from
"unchanged" forces the second console.log.  In the well-formed event
`cexEventU2` the single entry's `new` is "unchanged2", which differs from
"unchanged", yet the handler emits only the raw-object log because the
source additionally requires `!info.new.includes("unchanged")`. -/
theorem c1_counterexample :
    cexEventU2.resize_info = some [cexEntryU2]
    ∧ cexEntryU2.new = some "unchanged2"
    ∧ "unchanged2" ≠ "unchanged"
    ∧ resizeInfoHandler cexEventU2 = ⟨[LogItem.raw], false⟩ :=
  ⟨rfl, rfl, by decide, by decide⟩

/-- C1 (amended): for every event whose entries all carry a string `new`
field, if at least one entry's `new` does not contain "unchanged" as a
substring, the handler logs the full formatted message after the raw
event object — for both the resize-info and the megapixel-reducer
handler. -/
theorem c1_amended_message_logged :
    (∀ (d : ResizeInfoEventJS) (es : List ResizeEntryJS) (s : String),
      d.resize_info = some es →
      (∀ e ∈ es, (e.new).isSome = true) →
      some s ∈ es.map (fun e => e.new) →
      strContains s "unchanged" = false →
      resizeInfoHandler d
        = ⟨[LogItem.raw, LogItem.msg (arMessage d es)], false⟩)
    ∧ (∀ (d : MegapixelReducerEventJS) (omp : String) (es : List MPEntryJS)
        (s : String),
      d.original_megapixels = some omp →
      d.resize_info = some es →
      (∀ e ∈ es, (e.new).isSome = true) →
      some s ∈ es.map (fun e => e.new) →
      strContains s "unchanged" = false →
      megapixelReducerHandler d
        = ⟨[LogItem.raw, LogItem.msg (mrMessage d omp es)], false⟩) := by
  constructor
  · intro d es s hri hall hmem hs
    have hm : ∀ x ∈ es.map (fun e => e.new), x.isSome = true := by
      intro x hx
      obtain ⟨e, he, rfl⟩ := List.mem_map.mp hx
      exact hall e he
    have hsc := someChanged_true_of_witness (es.map (fun e => e.new)) s hm hmem hs
    simp [resizeInfoHandler, hri, hsc]
  · intro d omp es s homp hri hall hmem hs
    have hm : ∀ x ∈ es.map (fun e => e.new), x.isSome = true := by
      intro x hx
      obtain ⟨e, he, rfl⟩ := List.mem_map.mp hx
      exact hall e he
    have hsc := someChanged_true_of_witness (es.map (fun e => e.new)) s hm hmem hs
    simp [megapixelReducerHandler, homp, hri, hsc]

/-- C1 (witness): the amended theorem applied to the concrete events
`c8event` and `mrEventSample`, whose entries were actually resized. -/
theorem c1_amended_witness :
    resizeInfoHandler c8event
      = ⟨[LogItem.raw, LogItem.msg (arMessage c8event [c8entry])], false⟩
    ∧ megapixelReducerHandler mrEventSample
      = ⟨[LogItem.raw,
          LogItem.msg (mrMessage mrEventSample "8.29" [mrEntrySample])],
        false⟩ :=
  ⟨c1_amended_message_logged.1 c8event [c8entry] "1024x576" rfl
      (by decide) (by decide) (by decide),
    c1_amended_message_logged.2 mrEventSample "8.29" [mrEntrySample]
      "1884x1060" rfl rfl (by decide) (by decide) (by decide)⟩

/-- C2: for every event carrying N resize entries, the forEach loop of
`resizeInfoHandler` renders exactly N image lines, the message is the
header followed by those lines each terminated by a newline, and the
i-th line contains the entry's `original` value, the arrow, and the
entry's `new` value verbatim. -/
theorem c2_image_lines (d : ResizeInfoEventJS) (es : List ResizeEntryJS)
    (_hri : d.resize_info = some es) :
    arMessage d es
      = arHeader d ++ String.join ((arLines es).map (fun l => l ++ "\n"))
    ∧ (arLines es).length = es.length
    ∧ ∀ (i : Nat) (o n : String), i < es.length →
        (es.getD i emptyEntry).original = some o →
        (es.getD i emptyEntry).new = some n →
        ∃ p q, (arLines es).getD i "" = p ++ (o ++ (" → " ++ (n ++ q))) := by
  refine ⟨rfl, arLinesAux_length 0 es, ?_⟩
  intro i o n hi ho hn
  rw [arLines, arLinesAux_getD es 0 i hi]
  exact arLine_parts (0 + i) (es.getD i emptyEntry) o n ho hn

/-- C2 (witness): the theorem applied to the concrete event `c8event`. -/
theorem c2_image_lines_witness :
    (arLines [c8entry]).length = 1
    ∧ ∃ p q, (arLines [c8entry]).getD 0 ""
        = p ++ ("1920x1080" ++ (" → " ++ ("1024x576" ++ q))) :=
  ⟨(c2_image_lines c8event [c8entry] rfl).2.1,
    (c2_image_lines c8event [c8entry] rfl).2.2 0 "1920x1080" "1024x576"
      (by decide) rfl rfl⟩

/-- C3: for every event all of whose entries have `new` equal to
"unchanged", both handlers emit only the raw-object console.log and no
formatted message, and terminate normally. -/
theorem c3_all_unchanged_raw_only :
    (∀ (d : ResizeInfoEventJS) (es : List ResizeEntryJS),
      d.resize_info = some es →
      (∀ e ∈ es, e.new = some "unchanged") →
      resizeInfoHandler d = ⟨[LogItem.raw], false⟩)
    ∧ (∀ (d : MegapixelReducerEventJS) (omp : String) (es : List MPEntryJS),
      d.original_megapixels = some omp →
      d.resize_info = some es →
      (∀ e ∈ es, e.new = some "unchanged") →
      megapixelReducerHandler d = ⟨[LogItem.raw], false⟩) := by
  constructor
  · intro d es hri hall
    have hsc := someChanged_false_of_unchanged (es.map (fun e => e.new)) (by
      intro x hx
      obtain ⟨e, he, rfl⟩ := List.mem_map.mp hx
      exact hall e he)
    simp [resizeInfoHandler, hri, hsc]
  · intro d omp es homp hri hall
    have hsc := someChanged_false_of_unchanged (es.map (fun e => e.new)) (by
      intro x hx
      obtain ⟨e, he, rfl⟩ := List.mem_map.mp hx
      exact hall e he)
    simp [megapixelReducerHandler, homp, hri, hsc]

/-- C3 (witness): the theorem applied to the concrete all-unchanged events
`c3Event` and `c3MPEvent`. -/
theorem c3_all_unchanged_witness :
    resizeInfoHandler c3Event = ⟨[LogItem.raw], false⟩
    ∧ megapixelReducerHandler c3MPEvent = ⟨[LogItem.raw], false⟩ :=
  ⟨c3_all_unchanged_raw_only.1 c3Event [c3Entry] rfl (by decide),
    c3_all_unchanged_raw_only.2 c3MPEvent "0.48" [c3MPEntry] rfl rfl
      (by decide)⟩

/-- C4: the wrapped onNodeCreated installed by `beforeRegisterNodeDef` for
each of the two node types always leaves the node carrying the fixed
title/color/bgcolor triple of that type, whatever the previous hook did
and whatever the starting state; invoking the wrapped hook again yields
the same triple. -/
theorem c4_decoration_idempotent (α : Type) (nt : NodeType α) (s : NodeState) :
    ((beforeRegisterNodeDef "AspectRatioResizer" nt).onNodeCreated
        = some (wrapAspect nt.onNodeCreated)
      ∧ cosmetic (wrapAspect nt.onNodeCreated s).1
        = (some "Aspect Ratio Resizer", some "#2a4d3a", some "#335544")
      ∧ cosmetic
          (wrapAspect nt.onNodeCreated
            ((wrapAspect nt.onNodeCreated s).1)).1
        = (some "Aspect Ratio Resizer", some "#2a4d3a", some "#335544"))
    ∧ ((beforeRegisterNodeDef "AutoMegapixelReducer" nt).onNodeCreated
        = some (wrapMegapixel nt.onNodeCreated)
      ∧ cosmetic (wrapMegapixel nt.onNodeCreated s).1
        = (some "Auto Megapixel Reducer", some "#4d2a3a", some "#553344")
      ∧ cosmetic
          (wrapMegapixel nt.onNodeCreated
            ((wrapMegapixel nt.onNodeCreated s).1)).1
        = (some "Auto Megapixel Reducer", some "#4d2a3a", some "#553344")) := by
  refine ⟨⟨rfl, ?_, ?_⟩, ⟨rfl, ?_, ?_⟩⟩ <;>
    cases hh : nt.onNodeCreated <;>
      simp [wrapAspect, wrapMegapixel, decorateAR, decorateMR, cosmetic, hh]

/-- C5: when a previous onNodeCreated hook exists, the wrapped hook first
runs it on the same receiver state and returns exactly its return value;
the cosmetic assignments are applied to the state the previous hook
produced. -/
theorem c5_prior_hook_threaded (α : Type) (f : Hook α) (s : NodeState) :
    wrapAspect (some f) s = (decorateAR (f s).1, (f s).2)
    ∧ wrapMegapixel (some f) s = (decorateMR (f s).1, (f s).2) :=
  ⟨rfl, rfl⟩

/-- C6 (counterexample): the claim says every malformed payload is handled
without an error.  The malformed event `c6BadEvent` (its `resize_info`
absent) makes `data.resize_info.forEach` throw before any log, and the
malformed megapixel event `c6BadMPEvent` (its `original_megapixels`
absent) makes `.toFixed(2)` throw before any log. -/
theorem c6_counterexample :
    resizeInfoHandler c6BadEvent = ⟨[], true⟩
    ∧ megapixelReducerHandler c6BadMPEvent = ⟨[], true⟩ :=
  ⟨rfl, rfl⟩

/-- C6 (amended): absent scalar header fields are rendered as the text
"undefined" and never make a handler throw: whenever `resize_info` is
present and every entry's `new` field is a string, both handlers
terminate normally, whatever the remaining fields; but an absent
`resize_info` (either handler) or an absent `original_megapixels`
(megapixel handler) throws before any log. -/
theorem c6_amended_missing_fields :
    interp none = "undefined"
    ∧ (∀ (d : ResizeInfoEventJS) (es : List ResizeEntryJS),
      d.resize_info = some es →
      (∀ e ∈ es, (e.new).isSome = true) →
      (resizeInfoHandler d).errored = false)
    ∧ (∀ (d : MegapixelReducerEventJS) (omp : String) (es : List MPEntryJS),
      d.original_megapixels = some omp →
      d.resize_info = some es →
      (∀ e ∈ es, (e.new).isSome = true) →
      (megapixelReducerHandler d).errored = false)
    ∧ (∀ d : ResizeInfoEventJS, d.resize_info = none →
      resizeInfoHandler d = ⟨[], true⟩)
    ∧ (∀ (d : MegapixelReducerEventJS) (omp : String),
      d.original_megapixels = some omp → d.resize_info = none →
      megapixelReducerHandler d = ⟨[], true⟩)
    ∧ (∀ d : MegapixelReducerEventJS, d.original_megapixels = none →
      megapixelReducerHandler d = ⟨[], true⟩) := by
  refine ⟨rfl, ?_, ?_, ?_, ?_, ?_⟩
  · intro d es hri hall
    have hm : ∀ x ∈ es.map (fun e => e.new), x.isSome = true := by
      intro x hx
      obtain ⟨e, he, rfl⟩ := List.mem_map.mp hx
      exact hall e he
    obtain ⟨b, hb⟩ := someChanged_ok_of_allSome (es.map (fun e => e.new)) hm
    simp [resizeInfoHandler, hri, hb]
  · intro d omp es homp hri hall
    have hm : ∀ x ∈ es.map (fun e => e.new), x.isSome = true := by
      intro x hx
      obtain ⟨e, he, rfl⟩ := List.mem_map.mp hx
      exact hall e he
    obtain ⟨b, hb⟩ := someChanged_ok_of_allSome (es.map (fun e => e.new)) hm
    simp [megapixelReducerHandler, homp, hri, hb]
  · intro d hri
    simp [resizeInfoHandler, hri]
  · intro d omp homp hri
    simp [megapixelReducerHandler, homp, hri]
  · intro d homp
    simp [megapixelReducerHandler, homp]

/-- C6 (witness): the amended theorem applied to concrete events whose
scalar header fields are all absent yet which are handled without an
error, and to the concrete throwing events. -/
theorem c6_amended_witness :
    interp none = "undefined"
    ∧ (resizeInfoHandler c6UndefEvent).errored = false
    ∧ (megapixelReducerHandler c6UndefMPEvent).errored = false
    ∧ resizeInfoHandler c6BadEvent = ⟨[], true⟩
    ∧ megapixelReducerHandler c6BadMPEventNoInfo = ⟨[], true⟩
    ∧ megapixelReducerHandler c6BadMPEvent = ⟨[], true⟩ :=
  ⟨c6_amended_missing_fields.1,
    c6_amended_missing_fields.2.1 c6UndefEvent
      [⟨none, some "800x600", none, none⟩] rfl (by decide),
    c6_amended_missing_fields.2.2.1 c6UndefMPEvent "8.29"
      [⟨none, some "unchanged", none, none⟩] rfl rfl (by decide),
    c6_amended_missing_fields.2.2.2.1 c6BadEvent rfl,
    c6_amended_missing_fields.2.2.2.2.1 c6BadMPEventNoInfo "8.29" rfl rfl,
    c6_amended_missing_fields.2.2.2.2.2 c6BadMPEvent rfl⟩

/-- C7 (counterexample): the claim says the constraint is shown exactly
when the field is present.  In `cexEntryEmptyConstraint` the constraint
field is present (the empty string), yet the rendered line carries no
bracketed suffix, because the source tests JavaScript truthiness, not
presence. -/
theorem c7_counterexample :
    (cexEntryEmptyConstraint.constraint).isSome = true
    ∧ arLine 0 cexEntryEmptyConstraint
      = "Image 1: 1920x1080 → 1024x576 (scale: 0.533)"
    ∧ strContains (arLine 0 cexEntryEmptyConstraint) "[" = false :=
  ⟨rfl, by decide, by decide⟩

/-- C7 (amended): the image line shows original → new and the scale
factor, and the constraint is appended in square brackets exactly when
the field is present and non-empty (truthy); an absent or empty
constraint leaves the line without the suffix. -/
theorem c7_amended_constraint_suffix (i : Nat) (e : ResizeEntryJS) :
    (∀ c, e.constraint = some c → c ≠ "" →
      arLine i e = arLineBase i e ++ " [" ++ c ++ "]")
    ∧ (e.constraint = none ∨ e.constraint = some "" →
      arLine i e = arLineBase i e)
    ∧ (∀ o n sc, e.original = some o → e.new = some n → e.scale = some sc →
      arLineBase i e
        = "Image " ++ toString (i + 1) ++ ": " ++ o ++ " → " ++ n
            ++ " (scale: " ++ sc ++ ")") := by
  refine ⟨?_, ?_, ?_⟩
  · intro c hc hne
    simp [arLine, truthy, hc, interp, bne_iff_ne, hne]
  · intro hc
    rcases hc with hc | hc <;> simp [arLine, truthy, hc]
  · intro o n sc ho hn hsc
    simp [arLineBase, ho, hn, hsc, interp]

/-- C7 (witness): the amended theorem applied to the concrete entry
`cWidthEntry` with constraint "width". -/
theorem c7_amended_witness :
    arLine 0 cWidthEntry = arLineBase 0 cWidthEntry ++ " [" ++ "width" ++ "]"
    ∧ arLineBase 0 cWidthEntry
      = "Image " ++ toString (0 + 1) ++ ": " ++ "1920x1080" ++ " → "
          ++ "1024x576" ++ " (scale: " ++ "0.533" ++ ")" :=
  ⟨(c7_amended_constraint_suffix 0 cWidthEntry).1 "width" rfl (by decide),
    (c7_amended_constraint_suffix 0 cWidthEntry).2.2 "1920x1080" "1024x576"
      "0.533" rfl rfl rfl⟩

set_option maxRecDepth 40000 in
/-- C8: on the worked example event of the spec, the forEach loop renders
exactly the line "Image 1: 1920x1080 → 1024x576 (scale: 0.533)", the
handler logs the full message after the raw event object, and the
message contains that line verbatim. -/
theorem c8_example_line :
    arLines [c8entry] = ["Image 1: 1920x1080 → 1024x576 (scale: 0.533)"]
    ∧ resizeInfoHandler c8event
      = ⟨[LogItem.raw, LogItem.msg (arMessage c8event [c8entry])], false⟩
    ∧ strContains (arMessage c8event [c8entry])
        "Image 1: 1920x1080 → 1024x576 (scale: 0.533)" = true :=
  ⟨by decide, by decide, by decide⟩

/-- C9: when no previous onNodeCreated hook exists, the wrapped hook still
runs (total, no error), applies the title and the two colors, and
returns `none`, the model of the JavaScript `undefined` that
`onNodeCreated?.apply` yields. -/
theorem c9_absent_prior_hook (α : Type) (s : NodeState) :
    wrapAspect (none : Option (Hook α)) s = (decorateAR s, none)
    ∧ wrapMegapixel (none : Option (Hook α)) s = (decorateMR s, none)
    ∧ cosmetic (decorateAR s)
      = (some "Aspect Ratio Resizer", some "#2a4d3a", some "#335544")
    ∧ cosmetic (decorateMR s)
      = (some "Auto Megapixel Reducer", some "#4d2a3a", some "#553344") :=
  ⟨rfl, rfl, rfl, rfl⟩

/-- C10: for any node definition name other than the two handled ones,
`beforeRegisterNodeDef` returns the node type unchanged, its
onNodeCreated slot included. -/
theorem c10_other_nodes_untouched (α : Type) (name : String)
    (nt : NodeType α) (h1 : name ≠ "AspectRatioResizer")
    (h2 : name ≠ "AutoMegapixelReducer") :
    beforeRegisterNodeDef name nt = nt := by
  simp [beforeRegisterNodeDef, h1, h2]

/-- C10 (witness): the theorem applied to the node name "KSampler". -/
theorem c10_other_nodes_witness :
    ("KSampler" ≠ "AspectRatioResizer"
      ∧ "KSampler" ≠ "AutoMegapixelReducer")
    ∧ beforeRegisterNodeDef "KSampler" (⟨none⟩ : NodeType Unit) = ⟨none⟩ :=
  ⟨⟨by decide, by decide⟩,
    c10_other_nodes_untouched Unit "KSampler" ⟨none⟩ (by decide) (by decide)⟩
